import Mathlib

/-!
# Verification of the library-management core (`src/book.py`, `src/borrower.py`, `src/library.py`)

Shallow embedding of the in-memory `Library` domain model.  Python `dict`s
(insertion-ordered, unique keys) are modelled as lists with first-match lookup:
inserting a fresh key appends, writing an existing key replaces the first (and,
in reachable states, only) entry in place.  `datetime` values are modelled as
abstract integer instants; `timedelta(days=loan_days)` becomes the integer
`loan_days`, so `borrowed_on + timedelta(days=loan_days)` becomes
`borrowed_on + loan_days`.  `datetime.now()` is passed in as an explicit
parameter `now`.  Persistence (`_save` / `_load`) is a best-effort file
snapshot that never alters the in-memory state inside an operation, so it is
not modelled; the empty state corresponds to constructing a `Library` with no
(or a malformed) backing file.  Python exceptions are modelled with `Except`:
`KeyError` becomes `LibError.notFound`, `ValueError` becomes
`LibError.validation`.
-/

/-- `src/book.py`, dataclass `Book`.  `quantity` is a Python `int`, hence `Int`. -/
structure Book where
  title : String
  author : String
  isbn : String
  genre : String
  quantity : Int
deriving DecidableEq

/-- `src/borrower.py`, dataclass `BorrowedRecord`; timestamps are abstract instants. -/
structure BorrowedRecord where
  isbn : String
  borrowed_on : Int
  due_date : Int
deriving DecidableEq

/-- `src/borrower.py`, dataclass `Borrower` after `__post_init__`:
`membership_id` is a definite string and `borrowed_books` a definite list. -/
structure Borrower where
  name : String
  contact : String
  membership_id : String
  borrowed_books : List BorrowedRecord
deriving DecidableEq

/-- The two recoverable error kinds: `KeyError` (not found) and
`ValueError` (validation), with the message raised by the Python code. -/
inductive LibError where
  | notFound (msg : String)
  | validation (msg : String)
deriving DecidableEq

/-- `src/library.py`, class `Library`: the in-memory aggregate
(`books_by_isbn`, `borrowers_by_id`, `loan_days`).  The data-file path only
feeds the unmodelled persistence layer. -/
structure Library where
  books_by_isbn : List Book
  borrowers_by_id : List Borrower
  loan_days : Int
deriving DecidableEq

/-- Replace the first element satisfying `p` by its image under `f`
(in-place write of an existing key in an insertion-ordered dict). -/
def updateFirst (p : α → Bool) (f : α → α) : List α → List α
  | [] => []
  | x :: xs => if p x then f x :: xs else x :: updateFirst p f xs

/-- `Book.update` (src/book.py lines 15-25).  Python mutates `title`,
`author`, `genre` first and only then validates `quantity`; on a negative
quantity it raises after those fields have already been written.  The result
is therefore the (possibly partially updated) book together with the error,
if any. -/
def Book.update (b : Book) (title author genre : Option String)
    (quantity : Option Int) : Book × Option LibError :=
  let b1 := match title with | some t => { b with title := t } | none => b
  let b2 := match author with | some a => { b1 with author := a } | none => b1
  let b3 := match genre with | some g => { b2 with genre := g } | none => b2
  match quantity with
  | none => (b3, none)
  | some q =>
      if q < 0 then (b3, some (.validation "Quantity cannot be negative"))
      else ({ b3 with quantity := q }, none)

/-- `Book.is_available` (src/book.py): true iff `quantity > 0`. -/
def Book.is_available (b : Book) : Bool :=
  decide (0 < b.quantity)

/-- `Library.get_book`: `self.books_by_isbn.get(isbn)`. -/
def Library.get_book (lib : Library) (isbn : String) : Option Book :=
  lib.books_by_isbn.find? (fun b => b.isbn == isbn)

/-- `Library.add_book` (src/library.py lines 25-34): existing isbn gets its
quantity incremented via `Book.update` (which validates the new total);
a fresh isbn gets a brand-new `Book` with NO validation of `quantity`. -/
def Library.add_book (lib : Library) (title author isbn genre : String)
    (quantity : Int) : Library × Except LibError Book :=
  match lib.get_book isbn with
  | some book =>
      let r := book.update none none none (some (book.quantity + quantity))
      ({ lib with
          books_by_isbn := updateFirst (fun b => b.isbn == isbn) (fun _ => r.1) lib.books_by_isbn },
       match r.2 with
       | some e => .error e
       | none => .ok r.1)
  | none =>
      let book : Book :=
        { title := title, author := author, isbn := isbn, genre := genre, quantity := quantity }
      ({ lib with books_by_isbn := lib.books_by_isbn ++ [book] }, .ok book)

/-- `Library.update_book` (src/library.py lines 36-42): `KeyError` when the
isbn is unknown, otherwise `Book.update`; the (possibly partially mutated)
book object stays in the map even when `Book.update` raises. -/
def Library.update_book (lib : Library) (isbn : String)
    (title author genre : Option String) (quantity : Option Int) :
    Library × Except LibError Book :=
  match lib.get_book isbn with
  | none => (lib, .error (.notFound "Book not found"))
  | some book =>
      let r := book.update title author genre quantity
      ({ lib with
          books_by_isbn := updateFirst (fun b => b.isbn == isbn) (fun _ => r.1) lib.books_by_isbn },
       match r.2 with
       | some e => .error e
       | none => .ok r.1)

/-- `Library.remove_book` (src/library.py lines 44-49). -/
def Library.remove_book (lib : Library) (isbn : String) :
    Library × Except LibError Bool :=
  match lib.get_book isbn with
  | none => (lib, .error (.notFound "Book not found"))
  | some _ =>
      ({ lib with books_by_isbn := lib.books_by_isbn.eraseP (fun b => b.isbn == isbn) }, .ok true)

/-- `Borrower.__post_init__` (src/borrower.py lines 27-31): a falsy
`membership_id` (Python `None` or `""`) is replaced by a freshly generated
8-character token — modelled by the explicit parameter `freshId` — and the
loan sequence starts empty. -/
def Borrower.make (name contact : String) (membership_id : Option String)
    (freshId : String) : Borrower :=
  let mid := match membership_id with
    | none => freshId
    | some s => if s == "" then freshId else s
  { name := name, contact := contact, membership_id := mid, borrowed_books := [] }

/-- `Borrower.update` (src/borrower.py): falsy-value semantics — `None` or
`""` leaves the field unchanged. -/
def Borrower.update (br : Borrower) (name contact : Option String) : Borrower :=
  let br1 := match name with
    | some n => if n == "" then br else { br with name := n }
    | none => br
  match contact with
  | some c => if c == "" then br1 else { br1 with contact := c }
  | none => br1

/-- `Library.get_borrower`: `self.borrowers_by_id.get(membership_id)`. -/
def Library.get_borrower (lib : Library) (membership_id : String) : Option Borrower :=
  lib.borrowers_by_id.find? (fun br => br.membership_id == membership_id)

/-- `Library.add_borrower` (src/library.py lines 58-62): constructs the
borrower and writes `borrowers_by_id[borrower.membership_id] = borrower`,
silently replacing any existing entry under that key.  Never raises. -/
def Library.add_borrower (lib : Library) (name contact : String)
    (membership_id : Option String) (freshId : String) : Library × Borrower :=
  let borrower := Borrower.make name contact membership_id freshId
  let bs :=
    if lib.borrowers_by_id.any (fun br => br.membership_id == borrower.membership_id) then
      updateFirst (fun br => br.membership_id == borrower.membership_id)
        (fun _ => borrower) lib.borrowers_by_id
    else lib.borrowers_by_id ++ [borrower]
  ({ lib with borrowers_by_id := bs }, borrower)

/-- `Library.update_borrower` (src/library.py lines 64-70). -/
def Library.update_borrower (lib : Library) (membership_id : String)
    (name contact : Option String) : Library × Except LibError Borrower :=
  match lib.get_borrower membership_id with
  | none => (lib, .error (.notFound "Borrower not found"))
  | some borrower =>
      let br1 := borrower.update name contact
      ({ lib with borrowers_by_id :=
          (updateFirst (fun br => br.membership_id == membership_id)
            (fun _ => br1) lib.borrowers_by_id) }, .ok br1)

/-- `Library.remove_borrower` (src/library.py lines 72-77). -/
def Library.remove_borrower (lib : Library) (membership_id : String) :
    Library × Except LibError Bool :=
  match lib.get_borrower membership_id with
  | none => (lib, .error (.notFound "Borrower not found"))
  | some _ =>
      ({ lib with borrowers_by_id :=
          (lib.borrowers_by_id.eraseP (fun br => br.membership_id == membership_id)) }, .ok true)

/-- `Library.borrow_book` (src/library.py lines 86-105): `KeyError` on unknown
borrower, then `KeyError` on unknown isbn, then `ValueError` when
`quantity <= 0`; otherwise a `BorrowedRecord(isbn, now, now + loan_days)` is
appended to the borrower's loan sequence, the book's quantity drops by 1, and
the record is returned. -/
def Library.borrow_book (lib : Library) (membership_id isbn : String)
    (now : Int) : Library × Except LibError BorrowedRecord :=
  match lib.get_borrower membership_id with
  | none => (lib, .error (.notFound "Borrower not found"))
  | some _ =>
    match lib.get_book isbn with
    | none => (lib, .error (.notFound "Book not found"))
    | some book =>
      if book.quantity ≤ 0 then (lib, .error (.validation "No copies available"))
      else
        let record : BorrowedRecord :=
          { isbn := isbn, borrowed_on := now, due_date := now + lib.loan_days }
        ({ lib with
            borrowers_by_id := (updateFirst (fun br => br.membership_id == membership_id)
              (fun br => { br with borrowed_books := br.borrowed_books ++ [record] })
              lib.borrowers_by_id),
            books_by_isbn := (updateFirst (fun b => b.isbn == isbn)
              (fun b => { b with quantity := b.quantity - 1 }) lib.books_by_isbn) },
         .ok record)

/-- Result dictionary of `Library.return_book`; `due_date` is returned by the
Python code as `found.due_date.isoformat()`, i.e. the (serialised) instant. -/
structure ReturnResult where
  returned : Bool
  overdue : Bool
  due_date : Int
deriving DecidableEq

/-- `Library.return_book` (src/library.py lines 107-129): `KeyError` on
unknown borrower or isbn; scans the borrower's loan sequence for the first
record with the given isbn and raises `ValueError` if none; otherwise
`list.remove` drops the first element equal to that record, the book's
quantity rises by 1, and `overdue = now > found.due_date` is reported. -/
def Library.return_book (lib : Library) (membership_id isbn : String)
    (now : Int) : Library × Except LibError ReturnResult :=
  match lib.get_borrower membership_id with
  | none => (lib, .error (.notFound "Borrower not found"))
  | some borrower =>
    match lib.get_book isbn with
    | none => (lib, .error (.notFound "Book not found"))
    | some _ =>
      match borrower.borrowed_books.find? (fun r => r.isbn == isbn) with
      | none => (lib, .error (.validation "This borrower did not borrow this book"))
      | some found =>
          ({ lib with
              borrowers_by_id := (updateFirst (fun br => br.membership_id == membership_id)
                (fun br => { br with borrowed_books := br.borrowed_books.erase found })
                lib.borrowers_by_id),
              books_by_isbn := (updateFirst (fun b => b.isbn == isbn)
                (fun b => { b with quantity := b.quantity + 1 }) lib.books_by_isbn) },
           .ok { returned := true, overdue := decide (found.due_date < now),
                 due_date := found.due_date })

/-- Python `str.lower()`: per-character lowercasing. -/
def strLower (s : String) : String :=
  String.mk (s.data.map Char.toLower)

/-- Python `str.strip()`: drop leading and trailing whitespace. -/
def strStrip (s : String) : String :=
  String.mk (((s.data.dropWhile Char.isWhitespace).reverse.dropWhile
    Char.isWhitespace).reverse)

/-- Python `needle in hay` on strings: contiguous-substring test. -/
def strContains (hay needle : String) : Bool :=
  decide (needle.data <:+: hay.data)

/-- `Library.search_books` (src/library.py lines 180-193): strips and
lowercases the query; a blank query matches every book BEFORE the field is
examined; otherwise a case-insensitive substring match on the selected field,
any other field value matching nothing. -/
def Library.search_books (lib : Library) (query : String) (field : String) : List Book :=
  let q := strLower (strStrip query)
  lib.books_by_isbn.filter (fun book =>
    if q == "" then true
    else if field == "title" then strContains (strLower book.title) q
    else if field == "author" then strContains (strLower book.author) q
    else if field == "genre" then strContains (strLower book.genre) q
    else false)

/-- `Library.availability` (src/library.py lines 195-199). -/
def Library.availability (lib : Library) (isbn : String) :
    Except LibError (String × Int) :=
  match lib.get_book isbn with
  | none => .error (.notFound "Book not found")
  | some book => .ok (isbn, book.quantity)

/-- One invocation of a public mutating `Library` operation, with every
external input (arguments, the current instant `now` for borrow/return, the
generated token `freshId` for `add_borrower`) made explicit. -/
inductive Op where
  | add_book (title author isbn genre : String) (quantity : Int)
  | update_book (isbn : String) (title author genre : Option String) (quantity : Option Int)
  | remove_book (isbn : String)
  | add_borrower (name contact : String) (membership_id : Option String) (freshId : String)
  | update_borrower (membership_id : String) (name contact : Option String)
  | remove_borrower (membership_id : String)
  | borrow_book (membership_id isbn : String) (now : Int)
  | return_book (membership_id isbn : String) (now : Int)
deriving DecidableEq

/-- State reached after one public operation (the state component of the
operation, whether it succeeded or raised). -/
def Library.applyOp (lib : Library) : Op → Library
  | .add_book t a i g q => (lib.add_book t a i g q).1
  | .update_book i t a g q => (lib.update_book i t a g q).1
  | .remove_book i => (lib.remove_book i).1
  | .add_borrower n c m f => (lib.add_borrower n c m f).1
  | .update_borrower m n c => (lib.update_borrower m n c).1
  | .remove_borrower m => (lib.remove_borrower m).1
  | .borrow_book m i now => (lib.borrow_book m i now).1
  | .return_book m i now => (lib.return_book m i now).1

/-- State reached after a sequence of public operations. -/
def Library.applyOps (lib : Library) (ops : List Op) : Library :=
  ops.foldl Library.applyOp lib

/-- A fresh `Library(loan_days)` with no (or a malformed) backing file. -/
def Library.empty (loan_days : Int) : Library :=
  { books_by_isbn := [], borrowers_by_id := [], loan_days := loan_days }

/-- Copies of `isbn` held out on loan by one borrower. -/
def Borrower.heldCount (br : Borrower) (isbn : String) : Nat :=
  (br.borrowed_books.filter (fun r => r.isbn == isbn)).length

/-- Outstanding `BorrowedRecord`s referencing `isbn` across all borrowers. -/
def Library.outstanding (lib : Library) (isbn : String) : Nat :=
  (lib.borrowers_by_id.map (fun br => br.heldCount isbn)).sum

/-- Quantity of `isbn` on the shelf (0 when the isbn is not in the catalog). -/
def Library.getQty (lib : Library) (isbn : String) : Int :=
  match lib.get_book isbn with
  | some b => b.quantity
  | none => 0

/-- The conserved amount of claim C1: shelved copies plus outstanding loans. -/
def Library.conserved (lib : Library) (isbn : String) : Int :=
  lib.getQty isbn + (lib.outstanding isbn : Int)

/-- The operation is a `borrow_book` or a `return_book`. -/
def Op.isBorrowReturn : Op → Bool
  | .borrow_book _ _ _ => true
  | .return_book _ _ _ => true
  | _ => false

/-- The operation, when it is an `add_book`, carries a non-negative quantity. -/
def Op.addNonneg : Op → Bool
  | .add_book _ _ _ _ q => decide (0 ≤ q)
  | _ => true

/-- All shelved quantities are non-negative. -/
def Library.qtyNonneg (lib : Library) : Prop :=
  ∀ b ∈ lib.books_by_isbn, 0 ≤ b.quantity

/-! ### Generic lemmas about `updateFirst`, `find?`, `erase` -/

theorem updateFirst_cons (p : α → Bool) (f : α → α) (x : α) (xs : List α) :
    updateFirst p f (x :: xs) = if p x then f x :: xs else x :: updateFirst p f xs := rfl

/-- Elements of `updateFirst p f l` are old elements, or the image under `f`
of the first element satisfying `p`. -/
theorem mem_updateFirst {p : α → Bool} {f : α → α} {l : List α} {x : α}
    (hx : x ∈ updateFirst p f l) :
    x ∈ l ∨ ∃ y, l.find? p = some y ∧ x = f y := by
  induction l with
  | nil => simp [updateFirst] at hx
  | cons a as ih =>
      rw [updateFirst_cons] at hx
      by_cases hp : p a = true
      · rw [if_pos hp] at hx
        rcases List.mem_cons.mp hx with h | h
        · exact Or.inr ⟨a, List.find?_cons_of_pos _ hp, h⟩
        · exact Or.inl (List.mem_cons_of_mem _ h)
      · rw [if_neg hp] at hx
        rcases List.mem_cons.mp hx with h | h
        · exact Or.inl (h ▸ List.mem_cons_self a as)
        · rcases ih h with h1 | ⟨y, hy, hxy⟩
          · exact Or.inl (List.mem_cons_of_mem _ h1)
          · refine Or.inr ⟨y, ?_, hxy⟩
            rw [List.find?_cons_of_neg _ hp]
            exact hy

/-- Looking up the rewritten key after `updateFirst` finds the image of the
old first match, provided the image still matches. -/
theorem find?_updateFirst_self {p : α → Bool} {f : α → α} {l : List α} {y : α}
    (hy : l.find? p = some y) (hf : p (f y) = true) :
    (updateFirst p f l).find? p = some (f y) := by
  induction l with
  | nil => simp at hy
  | cons a as ih =>
      by_cases hp : p a = true
      · rw [List.find?_cons_of_pos _ hp] at hy
        injection hy with hy
        subst hy
        rw [updateFirst_cons, if_pos hp, List.find?_cons_of_pos _ hf]
      · rw [List.find?_cons_of_neg _ hp] at hy
        rw [updateFirst_cons, if_neg hp, List.find?_cons_of_neg _ hp]
        exact ih hy

/-- Looking up an unrelated key is unaffected by `updateFirst`. -/
theorem find?_updateFirst_of_disjoint {p q : α → Bool} {f : α → α} {l : List α}
    (h : ∀ y, p y = true → q y = false ∧ q (f y) = false) :
    (updateFirst p f l).find? q = l.find? q := by
  induction l with
  | nil => rfl
  | cons a as ih =>
      by_cases hp : p a = true
      · rcases h a hp with ⟨h1, h2⟩
        rw [updateFirst_cons, if_pos hp, List.find?_cons_of_neg _ (by simp [h2]),
          List.find?_cons_of_neg _ (by simp [h1])]
      · rw [updateFirst_cons, if_neg hp]
        by_cases hq : q a = true
        · rw [List.find?_cons_of_pos _ hq, List.find?_cons_of_pos _ hq]
        · rw [List.find?_cons_of_neg _ hq, List.find?_cons_of_neg _ hq]
          exact ih

/-- `updateFirst` does not change how many elements satisfy `q`, as long as
`f` preserves `q` on elements satisfying `p`. -/
theorem countP_updateFirst {p q : α → Bool} {f : α → α} {l : List α}
    (h : ∀ y, p y = true → q (f y) = q y) :
    (updateFirst p f l).countP q = l.countP q := by
  induction l with
  | nil => rfl
  | cons a as ih =>
      by_cases hp : p a = true
      · rw [updateFirst_cons, if_pos hp, List.countP_cons, List.countP_cons, h a hp]
      · rw [updateFirst_cons, if_neg hp, List.countP_cons, List.countP_cons, ih]

/-- Effect of `updateFirst` on a sum of per-element counts: only the first
`p`-match contributes a change. -/
theorem sum_map_updateFirst {p : α → Bool} {f : α → α} {g : α → Nat} {l : List α} {y : α}
    (hy : l.find? p = some y) :
    ((updateFirst p f l).map g).sum + g y = (l.map g).sum + g (f y) := by
  induction l with
  | nil => simp at hy
  | cons a as ih =>
      by_cases hp : p a = true
      · rw [List.find?_cons_of_pos _ hp] at hy
        injection hy with hy
        subst hy
        rw [updateFirst_cons, if_pos hp]
        simp only [List.map_cons, List.sum_cons]
        omega
      · rw [List.find?_cons_of_neg _ hp] at hy
        rw [updateFirst_cons, if_neg hp]
        simp only [List.map_cons, List.sum_cons]
        have h1 := ih hy
        omega

/-- Python's `list.remove(found)` where `found` is the first element
satisfying `p` removes exactly the first element satisfying `p`. -/
theorem erase_of_find?_eq_some [DecidableEq α] {p : α → Bool} {l : List α} {a : α}
    (h : l.find? p = some a) : l.erase a = l.eraseP p := by
  induction l with
  | nil => simp at h
  | cons x xs ih =>
      by_cases hp : p x = true
      · rw [List.find?_cons_of_pos _ hp] at h
        injection h with h
        subst h
        rw [List.erase_cons, if_pos (by simp), List.eraseP_cons, hp]
        rfl
      · rw [List.find?_cons_of_neg _ hp] at h
        have hxa : (x == a) = false := by
          rw [beq_eq_false_iff_ne]
          intro hxe
          rw [hxe] at hp
          exact hp (List.find?_some h)
        rw [List.erase_cons, if_neg (by simp [hxa]), List.eraseP_cons, Bool.cond_eq_if,
          if_neg (by simp [hp]), ih h]

/-- Erasing one occurrence of `a` lowers the `q`-count by one exactly when
`a` satisfies `q`. -/
theorem countP_erase [DecidableEq α] {q : α → Bool} {l : List α} {a : α} (ha : a ∈ l) :
    (l.erase a).countP q + (if q a = true then 1 else 0) = l.countP q := by
  induction l with
  | nil => simp at ha
  | cons x xs ih =>
      by_cases hxa : x = a
      · subst hxa
        rw [List.erase_cons, if_pos (by simp), List.countP_cons]
      · have ha' : a ∈ xs := by
          rcases List.mem_cons.mp ha with h | h
          · exact absurd h.symm hxa
          · exact h
        have hne : (x == a) = false := beq_eq_false_iff_ne.mpr hxa
        rw [List.erase_cons, if_neg (by simp [hne]), List.countP_cons, List.countP_cons]
        have h1 := ih ha'
        omega

/-- `find?` over an append whose left part has no match. -/
theorem find?_append_none {p : α → Bool} {l₁ l₂ : List α} (h : l₁.find? p = none) :
    (l₁ ++ l₂).find? p = l₂.find? p := by
  rw [List.find?_append, h, Option.none_or]

/-- Keyed specialisation of `find?_updateFirst_self`: rewriting the entry
under key `i` with a key-preserving function. -/
theorem find?_key_updateFirst_self {k : α → String} {l : List α} {i : String} {x : α}
    {f : α → α} (h : l.find? (fun y => k y == i) = some x) (hk : k (f x) = k x) :
    (updateFirst (fun y => k y == i) f l).find? (fun y => k y == i) = some (f x) :=
  find?_updateFirst_self h (by
    rw [hk]
    have h1 := @List.find?_some _ (fun y => k y == i) x l h
    simpa using h1)

/-- Keyed specialisation of `find?_updateFirst_of_disjoint`: rewriting under
key `i` leaves lookups of any other key `j` unchanged. -/
theorem find?_key_updateFirst_ne {k : α → String} {l : List α} {i j : String}
    {f : α → α} (hne : j ≠ i) (hk : ∀ y, k (f y) = k y) :
    (updateFirst (fun y => k y == i) f l).find? (fun y => k y == j) =
      l.find? (fun y => k y == j) := by
  refine find?_updateFirst_of_disjoint ?_
  intro y hy
  have hyi : k y = i := by simpa using hy
  constructor
  · rw [beq_eq_false_iff_ne]
    rw [hyi]
    exact fun hij => hne hij.symm
  · rw [beq_eq_false_iff_ne, hk y, hyi]
    exact fun hij => hne hij.symm

/-! ### Conservation of copies under borrow / return -/

theorem heldCount_eq_countP (br : Borrower) (isbn : String) :
    br.heldCount isbn = br.borrowed_books.countP (fun r => r.isbn == isbn) := by
  rw [Borrower.heldCount, List.countP_eq_length_filter]

theorem getQty_of_get_book {lib : Library} {j : String} {b : Book}
    (h : lib.get_book j = some b) : lib.getQty j = b.quantity := by
  rw [Library.getQty, h]

theorem getQty_congr {lib1 lib2 : Library} {j : String}
    (h : lib1.get_book j = lib2.get_book j) : lib1.getQty j = lib2.getQty j := by
  rw [Library.getQty, Library.getQty, h]

/-- Appending one record to the loan list of the borrower under key `m` adds
one to the outstanding count of that record's isbn and nothing else. -/
theorem sum_heldCount_updateFirst_append {brs : List Borrower} {m : String} {br : Borrower}
    (hbr : brs.find? (fun b => b.membership_id == m) = some br)
    (rec0 : BorrowedRecord) (j : String) :
    ((updateFirst (fun b => b.membership_id == m)
        (fun b => { b with borrowed_books := b.borrowed_books ++ [rec0] }) brs).map
          (fun b => b.heldCount j)).sum
      = (brs.map (fun b => b.heldCount j)).sum + (if rec0.isbn == j then 1 else 0) := by
  have hsum := sum_map_updateFirst
    (f := fun b => { b with borrowed_books := b.borrowed_books ++ [rec0] })
    (g := fun b => b.heldCount j) hbr
  have happ : ({ br with borrowed_books := br.borrowed_books ++ [rec0] } : Borrower).heldCount j
      = br.heldCount j + (if rec0.isbn == j then 1 else 0) := by
    by_cases hc : (rec0.isbn == j) = true
    · simp [Borrower.heldCount, List.filter_append, List.filter_cons, hc]
    · simp [Borrower.heldCount, List.filter_append, List.filter_cons, hc]
  simp only [happ] at hsum
  omega

/-- Erasing one record (present in the loan list) of the borrower under key
`m` subtracts one from the outstanding count of that record's isbn. -/
theorem sum_heldCount_updateFirst_erase {brs : List Borrower} {m : String} {br : Borrower}
    (hbr : brs.find? (fun b => b.membership_id == m) = some br)
    {rec0 : BorrowedRecord} (hmem : rec0 ∈ br.borrowed_books) (j : String) :
    ((updateFirst (fun b => b.membership_id == m)
        (fun b => { b with borrowed_books := b.borrowed_books.erase rec0 }) brs).map
          (fun b => b.heldCount j)).sum + (if rec0.isbn == j then 1 else 0)
      = (brs.map (fun b => b.heldCount j)).sum := by
  have hsum := sum_map_updateFirst
    (f := fun b => { b with borrowed_books := b.borrowed_books.erase rec0 })
    (g := fun b => b.heldCount j) hbr
  have hcnt := countP_erase (q := fun r => r.isbn == j) hmem
  have hers : ({ br with borrowed_books := br.borrowed_books.erase rec0 } : Borrower).heldCount j
      + (if rec0.isbn == j then 1 else 0) = br.heldCount j := by
    simp only [heldCount_eq_countP]
    by_cases hc : (rec0.isbn == j) = true
    · rw [if_pos hc] at hcnt
      simpa [hc] using hcnt
    · rw [if_neg hc] at hcnt
      simpa [hc] using hcnt
  simp only [Borrower.heldCount] at hsum hers ⊢
  omega

/-- A single `borrow_book` call (successful or not) does not change
`quantity + outstanding` for any isbn. -/
theorem conserved_borrow_book (lib : Library) (m i : String) (now : Int) (j : String) :
    ((lib.borrow_book m i now).1).conserved j = lib.conserved j := by
  rcases hbr : lib.get_borrower m with _ | br
  · simp [Library.borrow_book, hbr]
  rcases hbk : lib.get_book i with _ | bk
  · simp [Library.borrow_book, hbr, hbk]
  by_cases hq : bk.quantity ≤ 0
  · simp [Library.borrow_book, hbr, hbk, hq]
  · have hbr' : lib.borrowers_by_id.find? (fun b => b.membership_id == m) = some br := hbr
    have hbk' : lib.books_by_isbn.find? (fun b => b.isbn == i) = some bk := hbk
    simp only [Library.borrow_book, hbr, hbk, hq, if_false]
    rw [Library.conserved, Library.conserved]
    have hout := sum_heldCount_updateFirst_append hbr'
      ({ isbn := i, borrowed_on := now, due_date := now + lib.loan_days }) j
    by_cases hj : j = i
    · subst hj
      have hqty : ({ lib with
          borrowers_by_id := (updateFirst (fun br1 => br1.membership_id == m)
            (fun br1 => { br1 with borrowed_books := br1.borrowed_books ++
              [{ isbn := j, borrowed_on := now, due_date := now + lib.loan_days }] })
            lib.borrowers_by_id),
          books_by_isbn := (updateFirst (fun b => b.isbn == j)
            (fun b => { b with quantity := b.quantity - 1 }) lib.books_by_isbn) } :
            Library).getQty j = bk.quantity - 1 := by
        refine getQty_of_get_book (b := { bk with quantity := bk.quantity - 1 }) ?_
        rw [Library.get_book]
        exact find?_key_updateFirst_self (k := Book.isbn) hbk' rfl
      rw [hqty, getQty_of_get_book hbk]
      simp only [Library.outstanding] at hout ⊢
      rw [if_pos (by simp)] at hout
      rw [hout]
      push_cast
      ring
    · have hqty : ({ lib with
          borrowers_by_id := (updateFirst (fun br1 => br1.membership_id == m)
            (fun br1 => { br1 with borrowed_books := br1.borrowed_books ++
              [{ isbn := i, borrowed_on := now, due_date := now + lib.loan_days }] })
            lib.borrowers_by_id),
          books_by_isbn := (updateFirst (fun b => b.isbn == i)
            (fun b => { b with quantity := b.quantity - 1 }) lib.books_by_isbn) } :
            Library).getQty j = lib.getQty j := by
        refine getQty_congr ?_
        rw [Library.get_book, Library.get_book]
        exact find?_key_updateFirst_ne (k := Book.isbn) hj (fun y => rfl)
      rw [hqty]
      simp only [Library.outstanding] at hout ⊢
      rw [if_neg (by simp; exact fun hij => hj hij.symm)] at hout
      rw [hout]
      simp

/-- A single `return_book` call (successful or not) does not change
`quantity + outstanding` for any isbn. -/
theorem conserved_return_book (lib : Library) (m i : String) (now : Int) (j : String) :
    ((lib.return_book m i now).1).conserved j = lib.conserved j := by
  rcases hbr : lib.get_borrower m with _ | br
  · simp [Library.return_book, hbr]
  rcases hbk : lib.get_book i with _ | bk
  · simp [Library.return_book, hbr, hbk]
  rcases hfd : br.borrowed_books.find? (fun r => r.isbn == i) with _ | rec0
  · simp [Library.return_book, hbr, hbk, hfd]
  · have hbr' : lib.borrowers_by_id.find? (fun b => b.membership_id == m) = some br := hbr
    have hbk' : lib.books_by_isbn.find? (fun b => b.isbn == i) = some bk := hbk
    have hmem : rec0 ∈ br.borrowed_books := List.mem_of_find?_eq_some hfd
    have hpi : (rec0.isbn == i) = true :=
      @List.find?_some _ (fun r => r.isbn == i) rec0 br.borrowed_books hfd
    have hisbn : rec0.isbn = i := by simpa using hpi
    simp only [Library.return_book, hbr, hbk, hfd]
    rw [Library.conserved, Library.conserved]
    have hout := sum_heldCount_updateFirst_erase hbr' hmem j
    by_cases hj : j = i
    · subst hj
      have hqty : ({ lib with
          borrowers_by_id := (updateFirst (fun br1 => br1.membership_id == m)
            (fun br1 => { br1 with borrowed_books := br1.borrowed_books.erase rec0 })
            lib.borrowers_by_id),
          books_by_isbn := (updateFirst (fun b => b.isbn == j)
            (fun b => { b with quantity := b.quantity + 1 }) lib.books_by_isbn) } :
            Library).getQty j = bk.quantity + 1 := by
        refine getQty_of_get_book (b := { bk with quantity := bk.quantity + 1 }) ?_
        rw [Library.get_book]
        exact find?_key_updateFirst_self (k := Book.isbn) hbk' rfl
      rw [hqty, getQty_of_get_book hbk]
      simp only [Library.outstanding] at hout ⊢
      rw [if_pos hpi] at hout
      rw [← hout]
      push_cast
      ring
    · have hqty : ({ lib with
          borrowers_by_id := (updateFirst (fun br1 => br1.membership_id == m)
            (fun br1 => { br1 with borrowed_books := br1.borrowed_books.erase rec0 })
            lib.borrowers_by_id),
          books_by_isbn := (updateFirst (fun b => b.isbn == i)
            (fun b => { b with quantity := b.quantity + 1 }) lib.books_by_isbn) } :
            Library).getQty j = lib.getQty j := by
        refine getQty_congr ?_
        rw [Library.get_book, Library.get_book]
        exact find?_key_updateFirst_ne (k := Book.isbn) hj (fun y => rfl)
      rw [hqty]
      have hrecj : (rec0.isbn == j) = false := by
        rw [beq_eq_false_iff_ne, hisbn]
        exact fun hij => hj hij.symm
      simp only [Library.outstanding] at hout ⊢
      rw [if_neg (by simp [hrecj])] at hout
      rw [← hout]
      push_cast
      ring

/-- Borrow/return sequences never change `quantity + outstanding`. -/
theorem conserved_applyOps (ops : List Op) (lib : Library) (isbn : String)
    (hops : ∀ op ∈ ops, op.isBorrowReturn = true) :
    (lib.applyOps ops).conserved isbn = lib.conserved isbn := by
  induction ops generalizing lib with
  | nil => rfl
  | cons op rest ih =>
      have hop : op.isBorrowReturn = true := hops op (List.mem_cons_self op rest)
      have hstep : (lib.applyOp op).conserved isbn = lib.conserved isbn := by
        cases op with
        | borrow_book m i now => exact conserved_borrow_book lib m i now isbn
        | return_book m i now => exact conserved_return_book lib m i now isbn
        | add_book t a i g q => simp [Op.isBorrowReturn] at hop
        | update_book i t a g q => simp [Op.isBorrowReturn] at hop
        | remove_book i => simp [Op.isBorrowReturn] at hop
        | add_borrower n c mi f => simp [Op.isBorrowReturn] at hop
        | update_borrower m n c => simp [Op.isBorrowReturn] at hop
        | remove_borrower m => simp [Op.isBorrowReturn] at hop
      calc (lib.applyOps (op :: rest)).conserved isbn
          = ((lib.applyOp op).applyOps rest).conserved isbn := rfl
        _ = (lib.applyOp op).conserved isbn :=
            ih _ (fun o ho => hops o (List.mem_cons_of_mem op ho))
        _ = lib.conserved isbn := hstep

/-- **C1** (copy conservation): for every sequence of `borrow_book` /
`return_book` operations applied to any `Library` state and every isbn, the
book's quantity plus the number of outstanding `BorrowedRecord`s referencing
that isbn across all borrowers stays equal to its initial value `total` (for
a catalog built by `add_book` calls, the sum of all quantities ever added for
that isbn). -/
theorem copy_conservation (lib : Library) (ops : List Op) (isbn : String) (total : Int)
    (hops : ∀ op ∈ ops, op.isBorrowReturn = true)
    (hinit : lib.conserved isbn = total) :
    (lib.applyOps ops).conserved isbn = total :=
  (conserved_applyOps ops lib isbn hops).trans hinit

/-- A concrete state for witnesses: one title with two copies, one borrower. -/
def libW : Library :=
  { books_by_isbn := [{ title := "T", author := "A", isbn := "111", genre := "G", quantity := 2 }],
    borrowers_by_id := [{ name := "Alice", contact := "a@x", membership_id := "m1",
                          borrowed_books := [] }],
    loan_days := 14 }

/-- Witness for `copy_conservation`: a borrow followed by a return keeps
`quantity + outstanding` at its initial value 2. -/
theorem copy_conservation_witness :
    ((libW.applyOps [Op.borrow_book "m1" "111" 100, Op.return_book "m1" "111" 105]).conserved
      "111") = 2 :=
  copy_conservation libW [Op.borrow_book "m1" "111" 100, Op.return_book "m1" "111" 105]
    "111" 2 (by decide) (by decide)

/-! ### Quantity non-negativity (claim C2) -/

/-- `Book.update` only ever writes a non-negative value into `quantity`
(a negative supplied quantity raises instead of being written). -/
theorem quantity_update_nonneg {b : Book} (t a g : Option String) (q : Option Int)
    (hb : 0 ≤ b.quantity) : 0 ≤ ((b.update t a g q).1).quantity := by
  rcases t with _ | t <;> rcases a with _ | a <;> rcases g with _ | g <;>
    rcases q with _ | qv <;>
    simp only [Book.update] <;>
    first
      | exact hb
      | (split_ifs with h
         · exact hb
         · exact le_of_not_lt h)

/-- `Book.update` never changes the isbn. -/
theorem isbn_update (b : Book) (t a g : Option String) (q : Option Int) :
    ((b.update t a g q).1).isbn = b.isbn := by
  rcases t with _ | t <;> rcases a with _ | a <;> rcases g with _ | g <;>
    rcases q with _ | qv <;>
    simp only [Book.update] <;>
    first
      | rfl
      | (split_ifs with h <;> rfl)

/-- One public operation whose `add_book` quantity (if any) is non-negative
preserves non-negativity of all shelved quantities. -/
theorem qtyNonneg_applyOp {lib : Library} {op : Op} (hop : op.addNonneg = true)
    (hlib : lib.qtyNonneg) : (lib.applyOp op).qtyNonneg := by
  cases op with
  | add_book t a i g q =>
      have hq : 0 ≤ q := by simpa [Op.addNonneg] using hop
      rcases hbk : lib.get_book i with _ | bk
      · simp only [Library.applyOp, Library.add_book, hbk]
        intro b hb
        rcases List.mem_append.mp hb with h | h
        · exact hlib b h
        · have hb1 : b = { title := t, author := a, isbn := i, genre := g, quantity := q } := by
            simpa using h
          subst hb1
          exact hq
      · simp only [Library.applyOp, Library.add_book, hbk]
        intro b hb
        rcases mem_updateFirst hb with h | ⟨y, hy, hxy⟩
        · exact hlib b h
        · subst hxy
          exact quantity_update_nonneg _ _ _ _
            (hlib bk (List.mem_of_find?_eq_some hbk))
  | update_book i t a g q =>
      rcases hbk : lib.get_book i with _ | bk
      · simp only [Library.applyOp, Library.update_book, hbk]
        exact hlib
      · simp only [Library.applyOp, Library.update_book, hbk]
        intro b hb
        rcases mem_updateFirst hb with h | ⟨y, hy, hxy⟩
        · exact hlib b h
        · subst hxy
          exact quantity_update_nonneg _ _ _ _
            (hlib bk (List.mem_of_find?_eq_some hbk))
  | remove_book i =>
      rcases hbk : lib.get_book i with _ | bk
      · simp only [Library.applyOp, Library.remove_book, hbk]
        exact hlib
      · simp only [Library.applyOp, Library.remove_book, hbk]
        intro b hb
        exact hlib b (List.Sublist.mem hb (List.eraseP_sublist _))
  | add_borrower n c mi f => exact hlib
  | update_borrower m n c =>
      rcases hbr : lib.get_borrower m with _ | br
      · simp only [Library.applyOp, Library.update_borrower, hbr]
        exact hlib
      · simp only [Library.applyOp, Library.update_borrower, hbr]
        exact hlib
  | remove_borrower m =>
      rcases hbr : lib.get_borrower m with _ | br
      · simp only [Library.applyOp, Library.remove_borrower, hbr]
        exact hlib
      · simp only [Library.applyOp, Library.remove_borrower, hbr]
        exact hlib
  | borrow_book m i now =>
      rcases hbr : lib.get_borrower m with _ | br
      · simp only [Library.applyOp, Library.borrow_book, hbr]
        exact hlib
      rcases hbk : lib.get_book i with _ | bk
      · simp only [Library.applyOp, Library.borrow_book, hbr, hbk]
        exact hlib
      by_cases hqle : bk.quantity ≤ 0
      · simp only [Library.applyOp, Library.borrow_book, hbr, hbk, hqle, if_true]
        exact hlib
      · simp only [Library.applyOp, Library.borrow_book, hbr, hbk, hqle, if_false]
        intro b hb
        rcases mem_updateFirst hb with h | ⟨y, hy, hxy⟩
        · exact hlib b h
        · have hy2 : lib.get_book i = some y := hy
          rw [hbk] at hy2
          have hybk : y = bk := (Option.some.inj hy2).symm
          subst hxy
          subst hybk
          show 0 ≤ y.quantity - 1
          omega
  | return_book m i now =>
      rcases hbr : lib.get_borrower m with _ | br
      · simp only [Library.applyOp, Library.return_book, hbr]
        exact hlib
      rcases hbk : lib.get_book i with _ | bk
      · simp only [Library.applyOp, Library.return_book, hbr, hbk]
        exact hlib
      rcases hfd : br.borrowed_books.find? (fun r => r.isbn == i) with _ | rec0
      · simp only [Library.applyOp, Library.return_book, hbr, hbk, hfd]
        exact hlib
      simp only [Library.applyOp, Library.return_book, hbr, hbk, hfd]
      intro b hb
      rcases mem_updateFirst hb with h | ⟨y, hy, hxy⟩
      · exact hlib b h
      · subst hxy
        have h0 : 0 ≤ y.quantity := hlib y (List.mem_of_find?_eq_some hy)
        show 0 ≤ y.quantity + 1
        omega

/-- Sequences of public operations with non-negative `add_book` quantities
preserve non-negativity of all shelved quantities. -/
theorem qtyNonneg_applyOps {lib : Library} (ops : List Op)
    (hops : ∀ op ∈ ops, op.addNonneg = true) (hlib : lib.qtyNonneg) :
    (lib.applyOps ops).qtyNonneg := by
  induction ops generalizing lib with
  | nil => exact hlib
  | cons op rest ih =>
      exact ih (fun o ho => hops o (List.mem_cons_of_mem op ho))
        (qtyNonneg_applyOp (hops op (List.mem_cons_self op rest)) hlib)

/-- **C2, counterexample**: the claim as stated is false — `add_book` of a
NEW isbn performs no validation, so the public operation
`add_book("T","A","1","G",-1)` applied to the empty library reaches a state
whose only book has quantity -1. -/
theorem quantity_negative_reachable :
    ((Library.empty 14).applyOps [Op.add_book "T" "A" "1" "G" (-1)]).get_book "1" =
      some { title := "T", author := "A", isbn := "1", genre := "G", quantity := -1 } ∧
    ¬ ((Library.empty 14).applyOps [Op.add_book "T" "A" "1" "G" (-1)]).qtyNonneg := by
  constructor
  · rfl
  · intro h
    have h1 := h { title := "T", author := "A", isbn := "1", genre := "G", quantity := -1 }
      (by decide)
    exact absurd h1 (by decide)

/-- **C2, amended** (quantity non-negativity): in every state reachable from
the empty library by public operations in which every `add_book` call
supplies a non-negative quantity, every book's quantity is ≥ 0.  (Without
that restriction the claim fails: see `quantity_negative_reachable`.
`update_book` and re-`add_book` validate on their own; only `add_book` of a
fresh isbn accepts a negative quantity unchecked.) -/
theorem quantity_nonneg_of_nonneg_adds (d : Int) (ops : List Op)
    (hops : ∀ op ∈ ops, op.addNonneg = true) :
    ((Library.empty d).applyOps ops).qtyNonneg :=
  qtyNonneg_applyOps ops hops (by intro b hb; simp [Library.empty] at hb)

/-- Witness for `quantity_nonneg_of_nonneg_adds` on a concrete mixed
operation sequence. -/
theorem quantity_nonneg_of_nonneg_adds_witness :
    ((Library.empty 14).applyOps
      [Op.add_book "T" "A" "1" "G" 2,
       Op.add_borrower "Alice" "a@x" (some "m1") "f1",
       Op.borrow_book "m1" "1" 100,
       Op.return_book "m1" "1" 105]).qtyNonneg :=
  quantity_nonneg_of_nonneg_adds 14
    [Op.add_book "T" "A" "1" "G" 2,
     Op.add_borrower "Alice" "a@x" (some "m1") "f1",
     Op.borrow_book "m1" "1" 100,
     Op.return_book "m1" "1" 105] (by decide)

/-! ### Borrow / return postconditions (claims C3-C6) -/

/-- **C3** (borrow success): when the membership_id and isbn are known and
the book's quantity is positive, `borrow_book` returns the freshly created
record `{isbn, borrowed_on := now, due_date := now + loan_days}`, appends
exactly that record at the end of the borrower's loan sequence, decrements
that book's quantity by exactly 1, and leaves every other book, every other
borrower and the loan period unchanged. -/
theorem borrow_book_success_spec (lib : Library) (mid isbn : String) (now : Int)
    (br : Borrower) (bk : Book)
    (hbr : lib.get_borrower mid = some br)
    (hbk : lib.get_book isbn = some bk)
    (hq : 0 < bk.quantity) :
    (lib.borrow_book mid isbn now).2 =
        .ok { isbn := isbn, borrowed_on := now, due_date := now + lib.loan_days } ∧
    (lib.borrow_book mid isbn now).1.get_borrower mid =
        some { br with borrowed_books := br.borrowed_books ++
          [{ isbn := isbn, borrowed_on := now, due_date := now + lib.loan_days }] } ∧
    (lib.borrow_book mid isbn now).1.get_book isbn =
        some { bk with quantity := bk.quantity - 1 } ∧
    (∀ j, j ≠ isbn → (lib.borrow_book mid isbn now).1.get_book j = lib.get_book j) ∧
    (∀ m, m ≠ mid → (lib.borrow_book mid isbn now).1.get_borrower m = lib.get_borrower m) ∧
    (lib.borrow_book mid isbn now).1.loan_days = lib.loan_days := by
  have hqle : ¬ bk.quantity ≤ 0 := not_le.mpr hq
  have hbr' : lib.borrowers_by_id.find? (fun b => b.membership_id == mid) = some br := hbr
  have hbk' : lib.books_by_isbn.find? (fun b => b.isbn == isbn) = some bk := hbk
  simp only [Library.borrow_book, hbr, hbk, hqle, if_false]
  refine ⟨by trivial, ?_, ?_, ?_, ?_, by trivial⟩
  · rw [Library.get_borrower]
    exact find?_key_updateFirst_self (k := Borrower.membership_id) hbr' rfl
  · rw [Library.get_book]
    exact find?_key_updateFirst_self (k := Book.isbn) hbk' rfl
  · intro j hj
    rw [Library.get_book, Library.get_book]
    exact find?_key_updateFirst_ne (k := Book.isbn) hj (fun y => rfl)
  · intro m hm
    rw [Library.get_borrower, Library.get_borrower]
    exact find?_key_updateFirst_ne (k := Borrower.membership_id) hm (fun y => rfl)

/-- Witness for `borrow_book_success_spec` at a concrete state. -/
theorem borrow_book_success_spec_witness :
    (libW.borrow_book "m1" "111" 100).2 =
        .ok { isbn := "111", borrowed_on := 100, due_date := 114 } ∧
    (libW.borrow_book "m1" "111" 100).1.get_book "111" =
        some { title := "T", author := "A", isbn := "111", genre := "G", quantity := 1 } :=
  ⟨(borrow_book_success_spec libW "m1" "111" 100
      { name := "Alice", contact := "a@x", membership_id := "m1", borrowed_books := [] }
      { title := "T", author := "A", isbn := "111", genre := "G", quantity := 2 }
      (by decide) (by decide) (by decide)).1,
   (borrow_book_success_spec libW "m1" "111" 100
      { name := "Alice", contact := "a@x", membership_id := "m1", borrowed_books := [] }
      { title := "T", author := "A", isbn := "111", genre := "G", quantity := 2 }
      (by decide) (by decide) (by decide)).2.2.1⟩

/-- **C4** (borrow capacity failure is atomic): when the borrower and book
are known but the quantity is ≤ 0, `borrow_book` returns the capacity
Validation error and the whole state unchanged. -/
theorem borrow_book_capacity_atomic (lib : Library) (mid isbn : String) (now : Int)
    (br : Borrower) (bk : Book)
    (hbr : lib.get_borrower mid = some br)
    (hbk : lib.get_book isbn = some bk)
    (hq : bk.quantity ≤ 0) :
    lib.borrow_book mid isbn now = (lib, .error (.validation "No copies available")) := by
  simp [Library.borrow_book, hbr, hbk, hq]

/-- A concrete state with zero copies for the capacity witness. -/
def libZ : Library :=
  { books_by_isbn := [{ title := "T", author := "A", isbn := "222", genre := "G", quantity := 0 }],
    borrowers_by_id := [{ name := "Bob", contact := "b@x", membership_id := "m2",
                          borrowed_books := [] }],
    loan_days := 7 }

/-- Witness for `borrow_book_capacity_atomic`. -/
theorem borrow_book_capacity_atomic_witness :
    libZ.borrow_book "m2" "222" 50 = (libZ, .error (.validation "No copies available")) :=
  borrow_book_capacity_atomic libZ "m2" "222" 50
    { name := "Bob", contact := "b@x", membership_id := "m2", borrowed_books := [] }
    { title := "T", author := "A", isbn := "222", genre := "G", quantity := 0 }
    (by decide) (by decide) (by decide)

/-- **C5** (return success): when the borrower and book are known and the
loan sequence contains a record with the isbn, `return_book` removes exactly
the first such record (first-match, also with duplicates), increments that
book's quantity by exactly 1, returns
`{returned := true, overdue := now > due_date, due_date}` for that record's
due date, and leaves every other book, borrower and the loan period
unchanged. -/
theorem return_book_success_spec (lib : Library) (mid isbn : String) (now : Int)
    (br : Borrower) (bk : Book) (rec0 : BorrowedRecord)
    (hbr : lib.get_borrower mid = some br)
    (hbk : lib.get_book isbn = some bk)
    (hfd : br.borrowed_books.find? (fun r => r.isbn == isbn) = some rec0) :
    (lib.return_book mid isbn now).2 =
        .ok { returned := true, overdue := decide (rec0.due_date < now),
              due_date := rec0.due_date } ∧
    (lib.return_book mid isbn now).1.get_borrower mid =
        some { br with borrowed_books :=
          br.borrowed_books.eraseP (fun r => r.isbn == isbn) } ∧
    (lib.return_book mid isbn now).1.get_book isbn =
        some { bk with quantity := bk.quantity + 1 } ∧
    (∀ j, j ≠ isbn → (lib.return_book mid isbn now).1.get_book j = lib.get_book j) ∧
    (∀ m, m ≠ mid → (lib.return_book mid isbn now).1.get_borrower m = lib.get_borrower m) ∧
    (lib.return_book mid isbn now).1.loan_days = lib.loan_days := by
  have hbr' : lib.borrowers_by_id.find? (fun b => b.membership_id == mid) = some br := hbr
  have hbk' : lib.books_by_isbn.find? (fun b => b.isbn == isbn) = some bk := hbk
  simp only [Library.return_book, hbr, hbk, hfd]
  refine ⟨by trivial, ?_, ?_, ?_, ?_, by trivial⟩
  · rw [Library.get_borrower]
    rw [find?_key_updateFirst_self (k := Borrower.membership_id) hbr' rfl]
    rw [erase_of_find?_eq_some hfd]
  · rw [Library.get_book]
    exact find?_key_updateFirst_self (k := Book.isbn) hbk' rfl
  · intro j hj
    rw [Library.get_book, Library.get_book]
    exact find?_key_updateFirst_ne (k := Book.isbn) hj (fun y => rfl)
  · intro m hm
    rw [Library.get_borrower, Library.get_borrower]
    exact find?_key_updateFirst_ne (k := Borrower.membership_id) hm (fun y => rfl)

/-- A concrete state with one outstanding loan for the return witnesses. -/
def libR : Library :=
  { books_by_isbn := [{ title := "T", author := "A", isbn := "111", genre := "G", quantity := 1 }],
    borrowers_by_id := [{ name := "Alice", contact := "a@x", membership_id := "m1",
                          borrowed_books := [{ isbn := "111", borrowed_on := 100,
                                               due_date := 114 }] }],
    loan_days := 14 }

/-- Witness for `return_book_success_spec`: a late return reports
`overdue = true` and restores the quantity. -/
theorem return_book_success_spec_witness :
    (libR.return_book "m1" "111" 120).2 =
        .ok { returned := true, overdue := true, due_date := 114 } ∧
    (libR.return_book "m1" "111" 120).1.get_book "111" =
        some { title := "T", author := "A", isbn := "111", genre := "G", quantity := 2 } :=
  ⟨(return_book_success_spec libR "m1" "111" 120
      { name := "Alice", contact := "a@x", membership_id := "m1",
        borrowed_books := [{ isbn := "111", borrowed_on := 100, due_date := 114 }] }
      { title := "T", author := "A", isbn := "111", genre := "G", quantity := 1 }
      { isbn := "111", borrowed_on := 100, due_date := 114 }
      (by decide) (by decide) (by decide)).1,
   (return_book_success_spec libR "m1" "111" 120
      { name := "Alice", contact := "a@x", membership_id := "m1",
        borrowed_books := [{ isbn := "111", borrowed_on := 100, due_date := 114 }] }
      { title := "T", author := "A", isbn := "111", genre := "G", quantity := 1 }
      { isbn := "111", borrowed_on := 100, due_date := 114 }
      (by decide) (by decide) (by decide)).2.2.1⟩

/-- **C6** (return mismatch is atomic): when the borrower and book are known
but the borrower's loan sequence has no record with the isbn, `return_book`
fails with the "not borrowed" Validation error and the state is unchanged. -/
theorem return_book_mismatch_atomic (lib : Library) (mid isbn : String) (now : Int)
    (br : Borrower) (bk : Book)
    (hbr : lib.get_borrower mid = some br)
    (hbk : lib.get_book isbn = some bk)
    (hfd : br.borrowed_books.find? (fun r => r.isbn == isbn) = none) :
    lib.return_book mid isbn now =
      (lib, .error (.validation "This borrower did not borrow this book")) := by
  simp [Library.return_book, hbr, hbk, hfd]

/-- Witness for `return_book_mismatch_atomic`. -/
theorem return_book_mismatch_atomic_witness :
    libW.return_book "m1" "111" 50 =
      (libW, .error (.validation "This borrower did not borrow this book")) :=
  return_book_mismatch_atomic libW "m1" "111" 50
    { name := "Alice", contact := "a@x", membership_id := "m1", borrowed_books := [] }
    { title := "T", author := "A", isbn := "111", genre := "G", quantity := 2 }
    (by decide) (by decide) (by decide)

/-! ### Re-add accumulation (claim C7) -/

/-- `Book.update` with only a non-negative quantity writes the quantity and
succeeds. -/
theorem update_quantity_ok (b : Book) {qv : Int} (h : 0 ≤ qv) :
    b.update none none none (some qv) = ({ b with quantity := qv }, none) := by
  simp [Book.update, not_lt.mpr h]

/-- Replacing the entry under key `i` by a constant book whose isbn is `i`
leaves lookups of any other key `j` unchanged. -/
theorem find?_isbn_updateFirst_const_ne {books : List Book} {i j : String} {c : Book}
    (hne : j ≠ i) (hc : c.isbn = i) :
    (updateFirst (fun b => b.isbn == i) (fun _ => c) books).find? (fun b => b.isbn == j) =
      books.find? (fun b => b.isbn == j) := by
  refine find?_updateFirst_of_disjoint ?_
  intro y hy
  have hyi : y.isbn = i := by simpa using hy
  constructor
  · rw [beq_eq_false_iff_ne, hyi]
    exact fun h => hne h.symm
  · rw [beq_eq_false_iff_ne, hc]
    exact fun h => hne h.symm

/-- **C7** (re-add accumulation): two `add_book` calls with the same fresh
isbn and quantities `q1`, `q2` (each ≥ 0, as quantities are in the data
model) leave exactly one Book under that isbn, with quantity `q1 + q2` and
title/author/genre from the FIRST call; the second call returns that
accumulated book. -/
theorem add_book_readd_accumulates (lib : Library) (isbn : String)
    (t1 a1 g1 : String) (q1 : Int) (t2 a2 g2 : String) (q2 : Int)
    (h0 : lib.get_book isbn = none) (hq1 : 0 ≤ q1) (hq2 : 0 ≤ q2) :
    (((lib.add_book t1 a1 isbn g1 q1).1).add_book t2 a2 isbn g2 q2).1.get_book isbn =
        some { title := t1, author := a1, isbn := isbn, genre := g1, quantity := q1 + q2 } ∧
    ((((lib.add_book t1 a1 isbn g1 q1).1).add_book t2 a2 isbn g2 q2).1.books_by_isbn.countP
        (fun b => b.isbn == isbn)) = 1 ∧
    (((lib.add_book t1 a1 isbn g1 q1).1).add_book t2 a2 isbn g2 q2).2 =
        .ok { title := t1, author := a1, isbn := isbn, genre := g1, quantity := q1 + q2 } := by
  have hfind0 : lib.books_by_isbn.find? (fun b => b.isbn == isbn) = none := h0
  set lib1 := (lib.add_book t1 a1 isbn g1 q1).1 with hlib1
  have hbooks1 : lib1.books_by_isbn = lib.books_by_isbn ++
      [{ title := t1, author := a1, isbn := isbn, genre := g1, quantity := q1 }] := by
    rw [hlib1]
    simp only [Library.add_book, h0]
  have hfind1 : lib1.books_by_isbn.find? (fun b => b.isbn == isbn) =
      some { title := t1, author := a1, isbn := isbn, genre := g1, quantity := q1 } := by
    rw [hbooks1, find?_append_none hfind0]
    simp
  have hget1 : lib1.get_book isbn =
      some { title := t1, author := a1, isbn := isbn, genre := g1, quantity := q1 } := hfind1
  have hcount1 : lib1.books_by_isbn.countP (fun b => b.isbn == isbn) = 1 := by
    rw [hbooks1, List.countP_append, List.countP_eq_zero.mpr (List.find?_eq_none.mp hfind0)]
    simp
  have hup := update_quantity_ok
    { title := t1, author := a1, isbn := isbn, genre := g1, quantity := q1 }
    (show (0 : Int) ≤ q1 + q2 by omega)
  simp only [Library.add_book, hget1, hup]
  refine ⟨?_, ?_, by trivial⟩
  · rw [Library.get_book]
    exact find?_key_updateFirst_self (k := Book.isbn) hfind1 rfl
  · show (updateFirst (fun b => b.isbn == isbn)
        (fun _ => { title := t1, author := a1, isbn := isbn, genre := g1,
                    quantity := q1 + q2 })
        lib1.books_by_isbn).countP (fun b => b.isbn == isbn) = 1
    refine (countP_updateFirst ?_).trans hcount1
    intro y hy
    simp [hy]

/-- Witness for `add_book_readd_accumulates` starting from the empty library. -/
theorem add_book_readd_accumulates_witness :
    (((Library.empty 14).add_book "X" "Y" "9" "Z" 2).1.add_book "P" "Q" "9" "R" 3).1.get_book
        "9" = some { title := "X", author := "Y", isbn := "9", genre := "Z",
                     quantity := 2 + 3 } ∧
    ((((Library.empty 14).add_book "X" "Y" "9" "Z" 2).1.add_book "P" "Q" "9" "R" 3).1.books_by_isbn.countP
        (fun b => b.isbn == "9")) = 1 ∧
    (((Library.empty 14).add_book "X" "Y" "9" "Z" 2).1.add_book "P" "Q" "9" "R" 3).2 =
        .ok { title := "X", author := "Y", isbn := "9", genre := "Z", quantity := 2 + 3 } :=
  add_book_readd_accumulates (Library.empty 14) "9" "X" "Y" "Z" 2 "P" "Q" "R" 3
    (by decide) (by decide) (by decide)

/-! ### Search with an unrecognized field (claim C8) -/

/-- **C8, counterexample**: the claim as stated is false for blank queries —
the empty-query branch fires BEFORE the field is examined, so
`search_books("", "bogus")` returns every book instead of the empty list. -/
theorem search_books_blank_query_unknown_field_all :
    (Library.mk [{ title := "T", author := "A", isbn := "1", genre := "G", quantity := 1 }]
        [] 14).search_books "" "bogus" =
      [{ title := "T", author := "A", isbn := "1", genre := "G", quantity := 1 }] ∧
    [{ title := "T", author := "A", isbn := "1", genre := "G", quantity := 1 }] ≠
      ([] : List Book) := by
  constructor
  · rfl
  · decide

/-- **C8, amended**: for every catalog state and every query whose
stripped-lowercased form is non-empty, `search_books` with a field outside
{title, author, genre} returns the empty list (and, being a total function,
raises no error).  A blank query instead matches every book regardless of
the field: see `search_books_blank_query_unknown_field_all`. -/
theorem search_books_unknown_field_empty (lib : Library) (query field : String)
    (hf1 : field ≠ "title") (hf2 : field ≠ "author") (hf3 : field ≠ "genre")
    (hq : strLower (strStrip query) ≠ "") :
    lib.search_books query field = [] := by
  have h1 : (strLower (strStrip query) == "") = false := beq_eq_false_iff_ne.mpr hq
  have h2 : (field == "title") = false := beq_eq_false_iff_ne.mpr hf1
  have h3 : (field == "author") = false := beq_eq_false_iff_ne.mpr hf2
  have h4 : (field == "genre") = false := beq_eq_false_iff_ne.mpr hf3
  rw [Library.search_books]
  rw [List.filter_eq_nil_iff]
  intro book hbook
  simp [h1, h2, h3, h4]

/-- Witness for `search_books_unknown_field_empty`. -/
theorem search_books_unknown_field_empty_witness :
    libW.search_books "orwell" "bogus" = [] :=
  search_books_unknown_field_empty libW "orwell" "bogus"
    (by decide) (by decide) (by decide) (by decide)

/-! ### Partial mutation on invalid update (claim C9) -/

/-- `Book.update` with a negative quantity: the error is raised only AFTER
title/author/genre have been written; quantity keeps its old value. -/
theorem update_quantity_neg (b : Book) (t a g : Option String) {qv : Int} (h : qv < 0) :
    b.update t a g (some qv) =
      ({ b with title := t.getD b.title, author := a.getD b.author,
                genre := g.getD b.genre },
       some (.validation "Quantity cannot be negative")) := by
  rcases t with _ | t <;> rcases a with _ | a <;> rcases g with _ | g <;>
    simp [Book.update, h]

/-- A concrete one-book state for the update-validation claim. -/
def libU : Library :=
  { books_by_isbn := [{ title := "Old", author := "A", isbn := "1", genre := "G",
                        quantity := 5 }],
    borrowers_by_id := [], loan_days := 14 }

/-- **C9, counterexample**: the claim as stated is false — `update_book`
with a new title together with a negative quantity raises the Validation
error but has already written the new title, so the stored Book does NOT
keep all its prior values. -/
theorem update_book_negative_quantity_mutates :
    (libU.update_book "1" (some "New") none none (some (-1))).2 =
        .error (.validation "Quantity cannot be negative") ∧
    (libU.update_book "1" (some "New") none none (some (-1))).1.get_book "1" =
        some { title := "New", author := "A", isbn := "1", genre := "G", quantity := 5 } ∧
    (libU.update_book "1" (some "New") none none (some (-1))).1 ≠ libU := by
  refine ⟨rfl, rfl, ?_⟩
  decide

/-- **C9, amended**: for every known isbn, `update_book` with a negative
quantity fails with the Validation error and leaves the book's QUANTITY
unchanged, but any title/author/genre values supplied in the same call have
already been applied when the error is raised (Python mutates those fields
before validating the quantity); other books, the borrowers and the loan
period are untouched. -/
theorem update_book_negative_quantity_partial_write (lib : Library) (isbn : String)
    (t a g : Option String) (qv : Int) (bk : Book)
    (hbk : lib.get_book isbn = some bk) (hq : qv < 0) :
    (lib.update_book isbn t a g (some qv)).2 =
        .error (.validation "Quantity cannot be negative") ∧
    (lib.update_book isbn t a g (some qv)).1.get_book isbn =
        some { bk with title := t.getD bk.title, author := a.getD bk.author,
                       genre := g.getD bk.genre } ∧
    (∀ j, j ≠ isbn → (lib.update_book isbn t a g (some qv)).1.get_book j = lib.get_book j) ∧
    (lib.update_book isbn t a g (some qv)).1.borrowers_by_id = lib.borrowers_by_id ∧
    (lib.update_book isbn t a g (some qv)).1.loan_days = lib.loan_days := by
  have hbk' : lib.books_by_isbn.find? (fun b => b.isbn == isbn) = some bk := hbk
  have hisbn : bk.isbn = isbn := by
    have h1 := @List.find?_some _ (fun b => b.isbn == isbn) bk lib.books_by_isbn hbk'
    simpa using h1
  simp only [Library.update_book, hbk, update_quantity_neg bk t a g hq]
  refine ⟨by trivial, ?_, ?_, by trivial, by trivial⟩
  · rw [Library.get_book]
    exact find?_key_updateFirst_self (k := Book.isbn) hbk' rfl
  · intro j hj
    rw [Library.get_book, Library.get_book]
    exact find?_isbn_updateFirst_const_ne hj hisbn

/-- Witness for `update_book_negative_quantity_partial_write`. -/
theorem update_book_negative_quantity_partial_write_witness :
    (libU.update_book "1" (some "New") none none (some (-1))).2 =
        .error (.validation "Quantity cannot be negative") ∧
    (libU.update_book "1" (some "New") none none (some (-1))).1.get_book "1" =
        some { title := "New", author := "A", isbn := "1", genre := "G", quantity := 5 } :=
  ⟨(update_book_negative_quantity_partial_write libU "1" (some "New") none none (-1)
      { title := "Old", author := "A", isbn := "1", genre := "G", quantity := 5 }
      (by decide) (by decide)).1,
   (update_book_negative_quantity_partial_write libU "1" (some "New") none none (-1)
      { title := "Old", author := "A", isbn := "1", genre := "G", quantity := 5 }
      (by decide) (by decide)).2.1⟩

/-! ### add_borrower silently overwrites (claim C10) -/

/-- **C10** (add_borrower never fails and silently overwrites): for every
state, `add_borrower` returns a borrower (its Lean model is a total function
with no error outcome, matching the Python code, which raises nothing); when
called with a non-empty membership_id already present in the borrower map,
the stored Borrower — including its whole loan sequence — is replaced in
place by the new Borrower with an empty loan sequence, with no error and no
return of the displaced loans; books, other borrowers and the loan period
are untouched. -/
theorem add_borrower_overwrites (lib : Library) (n c id fresh : String) (old : Borrower)
    (hid : id ≠ "") (hold : lib.get_borrower id = some old) :
    (lib.add_borrower n c (some id) fresh).2 =
        { name := n, contact := c, membership_id := id, borrowed_books := [] } ∧
    (lib.add_borrower n c (some id) fresh).1.get_borrower id =
        some { name := n, contact := c, membership_id := id, borrowed_books := [] } ∧
    (∀ m, m ≠ id →
      (lib.add_borrower n c (some id) fresh).1.get_borrower m = lib.get_borrower m) ∧
    (lib.add_borrower n c (some id) fresh).1.books_by_isbn = lib.books_by_isbn ∧
    (lib.add_borrower n c (some id) fresh).1.loan_days = lib.loan_days := by
  have hold' : lib.borrowers_by_id.find? (fun br => br.membership_id == id) = some old :=
    hold
  have hmk : Borrower.make n c (some id) fresh =
      { name := n, contact := c, membership_id := id, borrowed_books := [] } := by
    simp [Borrower.make, beq_eq_false_iff_ne.mpr hid]
  have hany : lib.borrowers_by_id.any (fun br => br.membership_id == id) = true := by
    rw [List.any_eq_true]
    exact ⟨old, List.mem_of_find?_eq_some hold',
      @List.find?_some _ (fun br => br.membership_id == id) old lib.borrowers_by_id hold'⟩
  simp only [Library.add_borrower, hmk, hany, if_true]
  refine ⟨by trivial, ?_, ?_, by trivial, by trivial⟩
  · rw [Library.get_borrower]
    exact find?_updateFirst_self hold' (by simp)
  · intro m hm
    rw [Library.get_borrower, Library.get_borrower]
    refine find?_updateFirst_of_disjoint ?_
    intro y hy
    have hyid : y.membership_id = id := by simpa using hy
    constructor
    · rw [beq_eq_false_iff_ne, hyid]
      exact fun h => hm h.symm
    · show (({ name := n, contact := c, membership_id := id,
               borrowed_books := [] } : Borrower).membership_id == m) = false
      rw [beq_eq_false_iff_ne]
      show id ≠ m
      exact fun h => hm h.symm

/-- Witness for `add_borrower_overwrites`: re-adding "m1" on `libR` (whose
"m1" holds one outstanding loan) silently discards that loan list. -/
theorem add_borrower_overwrites_witness :
    (libR.add_borrower "Bob" "b@x" (some "m1") "zz").1.get_borrower "m1" =
      some { name := "Bob", contact := "b@x", membership_id := "m1",
             borrowed_books := [] } :=
  (add_borrower_overwrites libR "Bob" "b@x" "m1" "zz"
    { name := "Alice", contact := "a@x", membership_id := "m1",
      borrowed_books := [{ isbn := "111", borrowed_on := 100, due_date := 114 }] }
    (by decide) (by decide)).2.1
